import Mathlib

/-!
Shallow embedding of the ACQUIFER python package (`acquifer/__init__.py`).

The package decodes microscope acquisition metadata from fixed-offset
filename fields (classes `IM03.metadata` and `IM04.metadata`), converts
pixel coordinates to stage coordinates (`IM.metadata.convertXY_PixToIM`),
and extracts version/status strings from TCP responses (`IM.TCPIP`).

Python numbers are modelled as `Int`/`Rat` (the float values occurring in
this code - decimal literals with at most four fractional digits and
their products by powers of ten - are all exactly representable as IEEE
doubles and their arithmetic here is exact, so `Rat` agrees with the
float semantics on everything the code computes).  Fallible Python
operations (casts, lookups, attribute access) return `Except PyError`.
-/

/-- Python exception kinds raised by the code under study.  Each carries
the message or offending payload. -/
inductive PyError where
  | valueError (offending : String)
  | keyError (msg : String)
  | attributeError (missingAttr : String)
  | unicodeDecodeError
deriving DecidableEq, Repr

-- Equality of fallible results is decidable (used to evaluate the code
-- on concrete inputs).
deriving instance DecidableEq for Except

/-- Python index clamping used by slice semantics: a negative index counts
from the end (clamped below at 0), a nonnegative one is clamped above at
the length. -/
def pyIndex (n : Nat) (i : Int) : Nat :=
  if i < 0 then ((n : Int) + i).toNat else min i.toNat n

/-- Python string slice `s[a:b]` (never raises; out-of-range bounds are
clamped, negative bounds count from the end). -/
def pySlice (s : String) (a b : Int) : String :=
  String.mk ((s.data.drop (pyIndex s.length a)).take
    (pyIndex s.length b - pyIndex s.length a))

/-- Python bytes slice `out[a:b]`, same index semantics as `pySlice`. -/
def pySliceBytes (l : List Nat) (a b : Int) : List Nat :=
  (l.drop (pyIndex l.length a)).take
    (pyIndex l.length b - pyIndex l.length a)

/-- Value of a digit string read in base 10. -/
def digitsToNat (cs : List Char) : Nat :=
  cs.foldl (fun a c => a * 10 + (c.toNat - 48)) 0

/-- Python `int(s)` on the string shapes this code produces: an optional
sign followed by a nonempty run of digits parses to the integer, anything
else raises `ValueError` carrying the offending literal. -/
def pyInt (s : String) : Except PyError Int :=
  match s.data with
  | '-' :: rest =>
      if rest ≠ [] ∧ rest.all Char.isDigit then .ok (-(digitsToNat rest : Int))
      else .error (.valueError s)
  | '+' :: rest =>
      if rest ≠ [] ∧ rest.all Char.isDigit then .ok (digitsToNat rest : Int)
      else .error (.valueError s)
  | cs =>
      if cs ≠ [] ∧ cs.all Char.isDigit then .ok (digitsToNat cs : Int)
      else .error (.valueError s)

/-- Decimal representation parsed by Python `float(s)` for the string
shapes this code produces: optional sign, digits, optional point and
fraction digits.  Returns the signed mantissa and the number of
fraction digits, so the value is `mantissa / 10 ^ fracDigits`. -/
def pyFloatRep (s : String) : Except PyError (Int × Nat) :=
  let body : List Char → Except PyError (Nat × Nat) := fun cs =>
    match cs.splitOn '.' with
    | [intPart] =>
        if intPart ≠ [] ∧ intPart.all Char.isDigit then .ok (digitsToNat intPart, 0)
        else .error (.valueError s)
    | [intPart, fracPart] =>
        if (intPart ≠ [] ∨ fracPart ≠ []) ∧ intPart.all Char.isDigit ∧
            fracPart.all Char.isDigit then
          .ok (digitsToNat intPart * 10 ^ fracPart.length + digitsToNat fracPart,
               fracPart.length)
        else .error (.valueError s)
    | _ => .error (.valueError s)
  match s.data with
  | '-' :: rest => (body rest).map fun p => (-(p.1 : Int), p.2)
  | '+' :: rest => (body rest).map fun p => ((p.1 : Int), p.2)
  | cs => (body cs).map fun p => ((p.1 : Int), p.2)

/-- Python `float(s)`, as a rational. -/
def pyFloat (s : String) : Except PyError ℚ :=
  (pyFloatRep s).map fun p => (p.1 : ℚ) / (10 : ℚ) ^ p.2

/-- `string.ascii_uppercase`. -/
def asciiUppercase : String := "ABCDEFGHIJKLMNOPQRSTUVWXYZ"

/-- Python `haystack.index(needle)`: lowest index where `needle` occurs as
a substring, `ValueError` when absent (empty needle gives 0). -/
def pyStrIndex (haystack needle : String) : Except PyError Nat :=
  match (List.range (haystack.length + 1)).find?
      (fun i => needle.data.isPrefixOf (haystack.data.drop i)) with
  | some i => .ok i
  | none => .error (.valueError needle)

/-- Round to the nearest integer, ties to the even integer (Python
`round` tie-breaking). -/
def roundHalfEven (q : ℚ) : Int :=
  let f := ⌊q⌋
  let r := q - (f : ℚ)
  if r < 1/2 then f
  else if 1/2 < r then f + 1
  else if f % 2 = 0 then f else f + 1

/-- Python `round(x, 3)`. -/
def pyRound3 (q : ℚ) : ℚ := (roundHalfEven (q * 1000) : ℚ) / 1000

/-- Lookup in a Python dict modelled as an association list (also used
for the membership test `k in d`, as `isSome`). -/
def dictLookup {α : Type} : List (ℚ × α) → ℚ → Option α
  | [], _ => none
  | (k, v) :: rest, q => if q = k then some v else dictLookup rest q

/-! ## `IM.metadata`: static tables and the coordinate converter -/

/-- `IM.metadata.pixelSizeToMag`: pixel size (um) to objective
magnification. -/
def pixelSizeToMag : List (ℚ × Int) :=
  [(3.25, 2), (1.625, 4), (0.650, 10), (0.325, 20)]

/-- `IM.metadata.pixelSizeToNA`: pixel size (um) to objective NA. -/
def pixelSizeToNA : List (ℚ × ℚ) :=
  [(3.25, 0.06), (1.625, 0.13), (0.650, 0.3), (0.325, 0.45)]

/-- `IM.metadata.magToNA`. -/
def magToNA : List (ℚ × ℚ) :=
  [(2, 0.06), (4, 0.13), (10, 0.3), (20, 0.45), (40, 0.6)]

/-- `IM.metadata.convertXY_PixToIM`: pixel coordinates to IM stage
coordinates in mm, each output rounded to 3 decimals.  Mirrors
`Xout = X0mm + (-Image_Width/2 + Xpix)*PixelSize_um*10**-3` and
`Yout = Y0mm + (-Image_Height/2 + Image_Height - Ypix)*PixelSize_um*10**-3`. -/
def convertXY_PixToIM (Xpix Ypix PixelSize_um X0mm Y0mm : ℚ)
    (Image_Width : ℚ := 2048) (Image_Height : ℚ := 2048) : ℚ × ℚ :=
  (pyRound3 (X0mm + (-Image_Width/2 + Xpix) * PixelSize_um * (1/1000)),
   pyRound3 (Y0mm + (-Image_Height/2 + Image_Height - Ypix) * PixelSize_um * (1/1000)))

/-- The spec text of section 4.2, written from its own words for
comparison with `convertXY_PixToIM`:
`Xmm = stageCenterXmm + (pixelX - imageWidthPx/2) * pixelSizeUm * 1e-3`,
`Ymm = stageCenterYmm + (imageHeightPx - pixelY - imageHeightPx/2) * pixelSizeUm * 1e-3`,
each rounded to 3 decimal places. -/
def spec_pixelToStageCoordinate (pixelX pixelY pixelSizeUm
    stageCenterXmm stageCenterYmm : ℚ)
    (imageWidthPx : ℚ := 2048) (imageHeightPx : ℚ := 2048) : ℚ × ℚ :=
  (pyRound3 (stageCenterXmm + (pixelX - imageWidthPx/2) * pixelSizeUm * (1/1000)),
   pyRound3 (stageCenterYmm + (imageHeightPx - pixelY - imageHeightPx/2) * pixelSizeUm * (1/1000)))

/-! ## `IM03.metadata`: variant A decoding (fixed offsets) -/

/-- `IM03.metadata.getXYPosition_mm`: `int(name[74:80])/1000`,
`int(name[83:89])/1000`. -/
def IM03_getXYPosition_mm (imageName : String) : Except PyError (ℚ × ℚ) :=
  match pyInt (pySlice imageName 74 80) with
  | .error e => .error e
  | .ok x =>
    match pyInt (pySlice imageName 83 89) with
    | .error e => .error e
    | .ok y => .ok ((x : ℚ) / 1000, (y : ℚ) / 1000)

/-- `IM03.metadata.getWellSubPosition`: `int(name[18:20])`. -/
def IM03_getWellSubPosition (imageName : String) : Except PyError Int :=
  pyInt (pySlice imageName 18 20)

/-- `IM03.metadata.getZPosition_um`: `float(name[92:98])/10`. -/
def IM03_getZPosition_um (imageName : String) : Except PyError ℚ :=
  (pyFloat (pySlice imageName 92 98)).map fun v => v / 10

/-- `IM03.metadata.getPixelSize_um`: `float(name[43:48])*10**-4`. -/
def IM03_getPixelSize_um (imageName : String) : Except PyError ℚ :=
  (pyFloat (pySlice imageName 43 48)).map fun v => v * (1 / 10 ^ 4)

/-- `IM03.metadata.getObjectiveMagnification`.  Its first statement is
`pixSize = IM03.getPixelSize_um(imageName)`; the class `IM03` has no
attribute `getPixelSize_um` (the method lives on the nested class
`IM03.metadata`, and neither `IM03` nor its base `IM` defines it), so
every call raises `AttributeError` before any table lookup happens. -/
def IM03_getObjectiveMagnification (_imageName : String) : Except PyError Int :=
  .error (.attributeError "getPixelSize_um")

/-- `IM03.metadata.getObjectiveNA`: looks up the decoded pixel size in
`pixelSizeToNA`, raising `KeyError` on a miss. -/
def IM03_getObjectiveNA (imageName : String) : Except PyError ℚ :=
  match IM03_getPixelSize_um imageName with
  | .error e => .error e
  | .ok pixSize =>
    match dictLookup pixelSizeToNA pixSize with
    | some na => .ok na
    | none => .error (.keyError "No pixel size matching in the pixelSizeToNA dictionnary")

/-- `IM03.metadata.getWellId`: `name[10:14]`. -/
def IM03_getWellId (imageName : String) : String :=
  pySlice imageName 10 14

/-- `IM03.metadata.getWellColumn`: `int(name[11:14])`. -/
def IM03_getWellColumn (imageName : String) : Except PyError Int :=
  pyInt (pySlice imageName 11 14)

/-- `IM03.metadata.getWellRow`:
`string.ascii_uppercase.index(name[10:11]) + 1`. -/
def IM03_getWellRow (imageName : String) : Except PyError Int :=
  match pyStrIndex asciiUppercase (pySlice imageName 10 11) with
  | .error e => .error e
  | .ok i => .ok ((i : Int) + 1)

/-- `IM03.metadata.getWellIndex`: `int(name[2:7])`. -/
def IM03_getWellIndex (imageName : String) : Except PyError Int :=
  pyInt (pySlice imageName 2 7)

/-- `IM03.metadata.getZSlice`: `int(name[36:39])`. -/
def IM03_getZSlice (imageName : String) : Except PyError Int :=
  pyInt (pySlice imageName 36 39)

/-- `IM03.metadata.getChannelIndex`: `int(name[31:32])`. -/
def IM03_getChannelIndex (imageName : String) : Except PyError Int :=
  pyInt (pySlice imageName 31 32)

/-- `IM03.metadata.getLoopIteration`: `int(name[24:27])`. -/
def IM03_getLoopIteration (imageName : String) : Except PyError Int :=
  pyInt (pySlice imageName 24 27)

/-- `IM03.metadata.getTime`: `int(name[-14:-4])`. -/
def IM03_getTime (imageName : String) : Except PyError Int :=
  pyInt (pySlice imageName (-14) (-4))

/-- `IM03.metadata.getLightPower`: `int(name[52:56])`. -/
def IM03_getLightPower (imageName : String) : Except PyError Int :=
  pyInt (pySlice imageName 52 56)

/-- `IM03.metadata.getLightExposure`: `int(name[60:64])`. -/
def IM03_getLightExposure (imageName : String) : Except PyError Int :=
  pyInt (pySlice imageName 60 64)

/-- `IM03.metadata.getTemperature`: `float(name[68:71])/10`. -/
def IM03_getTemperature (imageName : String) : Except PyError ℚ :=
  (pyFloat (pySlice imageName 68 71)).map fun v => v / 10

/-! ## `IM04.metadata`: variant B decoding (fixed offsets) -/

/-- `IM04.metadata.getXYPosition_mm`: `int(name[65:71])/1000`,
`int(name[74:80])/1000`. -/
def IM04_getXYPosition_mm (imageName : String) : Except PyError (ℚ × ℚ) :=
  match pyInt (pySlice imageName 65 71) with
  | .error e => .error e
  | .ok x =>
    match pyInt (pySlice imageName 74 80) with
    | .error e => .error e
    | .ok y => .ok ((x : ℚ) / 1000, (y : ℚ) / 1000)

/-- `IM04.metadata.getWellSubPosition`: `int(name[9:11])`. -/
def IM04_getWellSubPosition (imageName : String) : Except PyError Int :=
  pyInt (pySlice imageName 9 11)

/-- `IM04.metadata.getZPosition_um`: `float(name[83:89])/10`. -/
def IM04_getZPosition_um (imageName : String) : Except PyError ℚ :=
  (pyFloat (pySlice imageName 83 89)).map fun v => v / 10

/-- `IM04.metadata.getPixelSize_um`: `float(name[34:39])*10**-4`. -/
def IM04_getPixelSize_um (imageName : String) : Except PyError ℚ :=
  (pyFloat (pySlice imageName 34 39)).map fun v => v * (1 / 10 ^ 4)

/-- `IM04.metadata.getObjectiveMagnification`: looks up the decoded pixel
size in `pixelSizeToMag`, raising `KeyError` on a miss. -/
def IM04_getObjectiveMagnification (imageName : String) : Except PyError Int :=
  match IM04_getPixelSize_um imageName with
  | .error e => .error e
  | .ok pixSize =>
    match dictLookup pixelSizeToMag pixSize with
    | some mag => .ok mag
    | none => .error (.keyError "No pixel size matching in the pixelSizeToMag dictionnary")

/-- `IM04.metadata.getObjectiveNA`: looks up the decoded pixel size in
`pixelSizeToNA`, raising `KeyError` on a miss. -/
def IM04_getObjectiveNA (imageName : String) : Except PyError ℚ :=
  match IM04_getPixelSize_um imageName with
  | .error e => .error e
  | .ok pixSize =>
    match dictLookup pixelSizeToNA pixSize with
    | some na => .ok na
    | none => .error (.keyError "No pixel size matching in the pixelSizeToNA dictionnary")

/-- `IM04.metadata.getWellId`: `name[1:5]`. -/
def IM04_getWellId (imageName : String) : String :=
  pySlice imageName 1 5

/-- `IM04.metadata.getWellColumn`: `int(name[2:5])`. -/
def IM04_getWellColumn (imageName : String) : Except PyError Int :=
  pyInt (pySlice imageName 2 5)

/-- `IM04.metadata.getWellRow`:
`string.ascii_uppercase.index(name[1:2]) + 1`. -/
def IM04_getWellRow (imageName : String) : Except PyError Int :=
  match pyStrIndex asciiUppercase (pySlice imageName 1 2) with
  | .error e => .error e
  | .ok i => .ok ((i : Int) + 1)

/-- `IM04.metadata.getWellIndex`: `int(name[106:111])`. -/
def IM04_getWellIndex (imageName : String) : Except PyError Int :=
  pyInt (pySlice imageName 106 111)

/-- `IM04.metadata.getZSlice`: `int(name[27:30])`. -/
def IM04_getZSlice (imageName : String) : Except PyError Int :=
  pyInt (pySlice imageName 27 30)

/-- `IM04.metadata.getChannelIndex`: `int(name[22:23])`. -/
def IM04_getChannelIndex (imageName : String) : Except PyError Int :=
  pyInt (pySlice imageName 22 23)

/-- `IM04.metadata.getLoopIteration`: `int(name[15:18])`. -/
def IM04_getLoopIteration (imageName : String) : Except PyError Int :=
  pyInt (pySlice imageName 15 18)

/-- `IM04.metadata.getTime`: `int(name[92:102])`. -/
def IM04_getTime (imageName : String) : Except PyError Int :=
  pyInt (pySlice imageName 92 102)

/-- `IM04.metadata.getLightPower`: `int(name[43:47])`. -/
def IM04_getLightPower (imageName : String) : Except PyError Int :=
  pyInt (pySlice imageName 43 47)

/-- `IM04.metadata.getLightExposure`: `int(name[51:55])`. -/
def IM04_getLightExposure (imageName : String) : Except PyError Int :=
  pyInt (pySlice imageName 51 55)

/-- `IM04.metadata.getTemperature`: `float(name[59:62])/10`. -/
def IM04_getTemperature (imageName : String) : Except PyError ℚ :=
  (pyFloat (pySlice imageName 59 62)).map fun v => v / 10

/-! ## `IM.TCPIP`: response extraction for getVersion / getStatus -/

/-- Index of the first occurrence of `b`. -/
def bytesFindAux (b : Nat) : List Nat → Option Nat
  | [] => none
  | x :: xs => if x = b then some 0 else (bytesFindAux b xs).map (· + 1)

/-- Python `out.find(b)` on bytes: first index of `b`, or -1 when absent. -/
def pyBytesFind (out : List Nat) (b : Nat) : Int :=
  match bytesFindAux b out with
  | some i => (i : Int)
  | none => -1

/-- One step of UTF-8 decoding bytes to chars, fuelled by the list length
(each step consumes at least one byte).  Matches Python `bytes.decode`
on ASCII and on well-formed multi-byte sequences; the overlong and
surrogate corner cases of strict UTF-8 validation are simplified (no
input in this development exercises them). -/
def decodeUtf8Go : Nat → List Nat → Except PyError (List Char)
  | _, [] => .ok []
  | 0, _ :: _ => .error .unicodeDecodeError
  | fuel + 1, b :: rest =>
    if b < 128 then
      (decodeUtf8Go fuel rest).map (Char.ofNat b :: ·)
    else if b < 194 then .error .unicodeDecodeError
    else if b < 224 then
      match rest with
      | b1 :: rest2 =>
        if 128 ≤ b1 ∧ b1 < 192 then
          (decodeUtf8Go fuel rest2).map
            (Char.ofNat ((b - 192) * 64 + (b1 - 128)) :: ·)
        else .error .unicodeDecodeError
      | [] => .error .unicodeDecodeError
    else if b < 240 then
      match rest with
      | b1 :: b2 :: rest3 =>
        if (128 ≤ b1 ∧ b1 < 192) ∧ (128 ≤ b2 ∧ b2 < 192) then
          (decodeUtf8Go fuel rest3).map
            (Char.ofNat ((b - 224) * 4096 + (b1 - 128) * 64 + (b2 - 128)) :: ·)
        else .error .unicodeDecodeError
      | _ => .error .unicodeDecodeError
    else if b < 245 then
      match rest with
      | b1 :: b2 :: b3 :: rest4 =>
        if (128 ≤ b1 ∧ b1 < 192) ∧ (128 ≤ b2 ∧ b2 < 192) ∧
            (128 ≤ b3 ∧ b3 < 192) then
          (decodeUtf8Go fuel rest4).map
            (Char.ofNat ((b - 240) * 262144 + (b1 - 128) * 4096 +
              (b2 - 128) * 64 + (b3 - 128)) :: ·)
        else .error .unicodeDecodeError
      | _ => .error .unicodeDecodeError
    else .error .unicodeDecodeError

/-- Python `bytes.decode("UTF-8")`. -/
def decodeUtf8 (bs : List Nat) : Except PyError String :=
  (decodeUtf8Go bs.length bs).map String.mk

/-- `IM.TCPIP.getVersion`, applied to the response bytes returned by
`self.__getFeedback__()` (the socket I/O itself, defined in a private
submodule outside this file, only supplies that byte sequence):
`offset = out.find(0x1f); out[offset+1:-1].decode("UTF-8")`. -/
def getVersionOfFeedback (out : List Nat) : Except PyError String :=
  decodeUtf8 (pySliceBytes out (pyBytesFind out 31 + 1) (-1))

/-- `IM.TCPIP.getStatus`, applied to the response bytes:
`offset = out.find(0x1f); out[offset+1:-1].decode()` (UTF-8 default). -/
def getStatusOfFeedback (out : List Nat) : Except PyError String :=
  decodeUtf8 (pySliceBytes out (pyBytesFind out 31 + 1) (-1))

/-! ## The two example filenames from the docstrings -/

/-- Variant A (IM03) example filename from the `IM03.metadata` docstring. -/
def exampleA : String :=
  "WE00003---A003--PO01--LO001--CO6--SL010--PX16250--PW0040--IN0020--TM246--X032281--Y010963--Z211825--T1375404533.tif"

/-- Variant B (IM04) example filename from the `IM04.metadata` docstring. -/
def exampleB : String :=
  "-A001--PO01--LO001--CO6--SL001--PX32500--PW0080--IN0020--TM244--X014580--Y011262--Z209501--T1374031802--WE00001.tif"

/-- Variant A example filename with the well-row letter replaced by `Z`. -/
def exampleZRow : String :=
  "WE00003---Z003--PO01--LO001--CO6--SL010--PX16250--PW0040--IN0020--TM246--X032281--Y010963--Z211825--T1375404533.tif"

/-- Variant A example filename with non-digit characters in the
well-column field (offsets 11-13). -/
def exampleBadColumn : String :=
  "WE00003---AXYZ--PO01--LO001--CO6--SL010--PX16250--PW0040--IN0020--TM246--X032281--Y010963--Z211825--T1375404533.tif"

/-- Variant B example filename with pixel-size field `PX40000` (4.0 um),
a value missing from both lookup tables. -/
def exampleBPx4 : String :=
  "-A001--PO01--LO001--CO6--SL001--PX40000--PW0080--IN0020--TM244--X014580--Y011262--Z209501--T1374031802--WE00001.tif"

/-! ## Helper lemmas -/

/-- A successful dict lookup returns a stored key/value pair. -/
lemma dictLookup_mem {α : Type} :
    ∀ (d : List (ℚ × α)) (q : ℚ) (v : α), dictLookup d q = some v → (q, v) ∈ d := by
  intro d
  induction d with
  | nil => intro q v h; simp [dictLookup] at h
  | cons kv rest ih =>
    intro q v h
    obtain ⟨k, w⟩ := kv
    by_cases hq : q = k
    · simp [dictLookup, hq] at h
      subst hq
      subst h
      exact List.mem_cons_self _ _
    · simp [dictLookup, hq] at h
      exact List.mem_cons_of_mem _ (ih q v h)

/-- Index of a single uppercase letter in `string.ascii_uppercase`. -/
lemma pyStrIndex_upper :
    ∀ k, k < 91 → 65 ≤ k →
      pyStrIndex asciiUppercase (String.mk [Char.ofNat k]) = .ok (k - 65) := by
  decide

/-! ## Claims -/

/-- C1: decoding the two literal example filenames reproduces every
documented field value exactly, for both variant A (IM03) and
variant B (IM04). -/
theorem C1_example_decoding :
    IM03_getWellId exampleA = "A003" ∧
    IM03_getWellColumn exampleA = .ok 3 ∧
    IM03_getWellRow exampleA = .ok 1 ∧
    IM03_getWellIndex exampleA = .ok 3 ∧
    IM03_getWellSubPosition exampleA = .ok 1 ∧
    IM03_getLoopIteration exampleA = .ok 1 ∧
    IM03_getZSlice exampleA = .ok 10 ∧
    IM03_getPixelSize_um exampleA = .ok 1.625 ∧
    IM03_getLightPower exampleA = .ok 40 ∧
    IM03_getLightExposure exampleA = .ok 20 ∧
    IM03_getTemperature exampleA = .ok 24.6 ∧
    IM03_getXYPosition_mm exampleA = .ok (32.281, 10.963) ∧
    IM03_getZPosition_um exampleA = .ok 21182.5 ∧
    IM03_getTime exampleA = .ok 1375404533 ∧
    IM04_getWellId exampleB = "A001" ∧
    IM04_getWellColumn exampleB = .ok 1 ∧
    IM04_getWellRow exampleB = .ok 1 ∧
    IM04_getWellIndex exampleB = .ok 1 ∧
    IM04_getWellSubPosition exampleB = .ok 1 ∧
    IM04_getLoopIteration exampleB = .ok 1 ∧
    IM04_getZSlice exampleB = .ok 1 ∧
    IM04_getPixelSize_um exampleB = .ok 3.25 ∧
    IM04_getLightPower exampleB = .ok 80 ∧
    IM04_getLightExposure exampleB = .ok 20 ∧
    IM04_getTemperature exampleB = .ok 24.4 ∧
    IM04_getXYPosition_mm exampleB = .ok (14.580, 11.262) ∧
    IM04_getZPosition_um exampleB = .ok 20950.1 ∧
    IM04_getTime exampleB = .ok 1374031802 := by
  refine ⟨by decide, by decide, by decide, by decide, by decide, by decide, by decide,
    ?_, by decide, by decide, ?_, ?_, ?_, by decide,
    by decide, by decide, by decide, by decide, by decide, by decide, by decide,
    ?_, by decide, by decide, ?_, ?_, ?_, by decide⟩
  · have h : pyFloatRep (pySlice exampleA 43 48) = .ok (16250, 0) := by decide
    norm_num [IM03_getPixelSize_um, pyFloat, h, Except.map]
  · have h : pyFloatRep (pySlice exampleA 68 71) = .ok (246, 0) := by decide
    norm_num [IM03_getTemperature, pyFloat, h, Except.map]
  · have hx : pyInt (pySlice exampleA 74 80) = .ok 32281 := by decide
    have hy : pyInt (pySlice exampleA 83 89) = .ok 10963 := by decide
    norm_num [IM03_getXYPosition_mm, hx, hy]
  · have h : pyFloatRep (pySlice exampleA 92 98) = .ok (211825, 0) := by decide
    norm_num [IM03_getZPosition_um, pyFloat, h, Except.map]
  · have h : pyFloatRep (pySlice exampleB 34 39) = .ok (32500, 0) := by decide
    norm_num [IM04_getPixelSize_um, pyFloat, h, Except.map]
  · have h : pyFloatRep (pySlice exampleB 59 62) = .ok (244, 0) := by decide
    norm_num [IM04_getTemperature, pyFloat, h, Except.map]
  · have hx : pyInt (pySlice exampleB 65 71) = .ok 14580 := by decide
    have hy : pyInt (pySlice exampleB 74 80) = .ok 11262 := by decide
    norm_num [IM04_getXYPosition_mm, hx, hy]
  · have h : pyFloatRep (pySlice exampleB 83 89) = .ok (209501, 0) := by decide
    norm_num [IM04_getZPosition_um, pyFloat, h, Except.map]

/-- C2 (evaluation at the failing input): `IM03.metadata.getObjectiveMagnification`
raises `AttributeError` on every call (its body names the nonexistent
attribute `IM03.getPixelSize_um`), while `IM03.getObjectiveNA` and both
IM04 lookups work and raise `KeyError` with a fixed message naming only
the table (not the offending pixel size) for the unlisted value 4.0. -/
theorem C2_objective_lookup_eval :
    IM03_getObjectiveMagnification exampleA =
      .error (.attributeError "getPixelSize_um") ∧
    IM03_getObjectiveNA exampleA = .ok 0.13 ∧
    IM04_getObjectiveMagnification exampleB = .ok 2 ∧
    IM04_getObjectiveNA exampleB = .ok 0.06 ∧
    IM04_getObjectiveMagnification exampleBPx4 =
      .error (.keyError "No pixel size matching in the pixelSizeToMag dictionnary") ∧
    IM04_getObjectiveNA exampleBPx4 =
      .error (.keyError "No pixel size matching in the pixelSizeToNA dictionnary") := by
  refine ⟨rfl, ?_, ?_, ?_, ?_, ?_⟩
  · have h : pyFloatRep (pySlice exampleA 43 48) = .ok (16250, 0) := by decide
    norm_num [IM03_getObjectiveNA, IM03_getPixelSize_um, pyFloat, h, Except.map,
      dictLookup, pixelSizeToNA]
  · have h : pyFloatRep (pySlice exampleB 34 39) = .ok (32500, 0) := by decide
    norm_num [IM04_getObjectiveMagnification, IM04_getPixelSize_um, pyFloat, h, Except.map,
      dictLookup, pixelSizeToMag]
  · have h : pyFloatRep (pySlice exampleB 34 39) = .ok (32500, 0) := by decide
    norm_num [IM04_getObjectiveNA, IM04_getPixelSize_um, pyFloat, h, Except.map,
      dictLookup, pixelSizeToNA]
  · have h : pyFloatRep (pySlice exampleBPx4 34 39) = .ok (40000, 0) := by decide
    norm_num [IM04_getObjectiveMagnification, IM04_getPixelSize_um, pyFloat, h, Except.map,
      dictLookup, pixelSizeToMag]
  · have h : pyFloatRep (pySlice exampleBPx4 34 39) = .ok (40000, 0) := by decide
    norm_num [IM04_getObjectiveNA, IM04_getPixelSize_um, pyFloat, h, Except.map,
      dictLookup, pixelSizeToNA]

/-- C3 counterexample: on both literal example filenames the channel
field is `CO6`, so `getChannelIndex` returns 6, which is none of
1, 3, 5 - the claim fails on the very inputs it names. -/
theorem C3_counterexample :
    IM03_getChannelIndex exampleA = .ok 6 ∧
    IM04_getChannelIndex exampleB = .ok 6 ∧
    ¬(IM03_getChannelIndex exampleA = .ok 1 ∨ IM03_getChannelIndex exampleA = .ok 3 ∨
      IM03_getChannelIndex exampleA = .ok 5) ∧
    ¬(IM04_getChannelIndex exampleB = .ok 1 ∨ IM04_getChannelIndex exampleB = .ok 3 ∨
      IM04_getChannelIndex exampleB = .ok 5) := by
  decide

/-- C3 (amended): `getChannelIndex` reads the single digit at index 31
(variant A) / index 22 (variant B) and returns 6 on both example
filenames; 1/3/5 is only the documented DAPI/FITC/TRITC convention and
is not satisfied by (or enforced on) the examples. -/
theorem C3_channel_index_amended :
    IM03_getChannelIndex exampleA = pyInt (pySlice exampleA 31 32) ∧
    IM04_getChannelIndex exampleB = pyInt (pySlice exampleB 22 23) ∧
    IM03_getChannelIndex exampleA = .ok 6 ∧
    IM04_getChannelIndex exampleB = .ok 6 := by
  decide

/-- C4: for all inputs, `convertXY_PixToIM` computes exactly the spec
formula (documented X formula and inverted-Y formula, each output
rounded to 3 decimal places: every output is an integer multiple of
1/1000). -/
theorem C4_convert_formula :
    ∀ (Xpix Ypix PixelSize_um X0mm Y0mm W H : ℚ),
      convertXY_PixToIM Xpix Ypix PixelSize_um X0mm Y0mm W H =
        spec_pixelToStageCoordinate Xpix Ypix PixelSize_um X0mm Y0mm W H ∧
      ∃ m n : Int, convertXY_PixToIM Xpix Ypix PixelSize_um X0mm Y0mm W H =
        ((m : ℚ) / 1000, (n : ℚ) / 1000) := by
  intro Xpix Ypix PixelSize_um X0mm Y0mm W H
  constructor
  · unfold convertXY_PixToIM spec_pixelToStageCoordinate
    congr 1 <;> · congr 1; ring
  · exact ⟨_, _, rfl⟩

/-- C5: at the image-center pixel (1024, 1024) with the default
2048 x 2048 dimensions, the converter returns the stage center rounded
to 3 decimals, for every pixel size. -/
theorem C5_center_roundtrip :
    ∀ (P X0 Y0 : ℚ),
      convertXY_PixToIM 1024 1024 P X0 Y0 = (pyRound3 X0, pyRound3 Y0) := by
  intro P X0 Y0
  unfold convertXY_PixToIM
  congr 1 <;> · congr 1; ring

/-- C6 (amended): when the character at the row offset (index 10 for
variant A, index 1 for variant B) is an uppercase letter, `getWellRow`
returns the 1-based position of that letter in the uppercase alphabet; that
position ranges over 1-26 (it lies in 1-8 exactly when the letter is
one of A-H), not 1-8 in general. -/
theorem C6_wellRow_amended :
    (∀ (s : String) (k : Nat), 65 ≤ k → k ≤ 90 →
      pySlice s 10 11 = String.mk [Char.ofNat k] →
      IM03_getWellRow s = .ok ((k : Int) - 64) ∧
      1 ≤ (k : Int) - 64 ∧ (k : Int) - 64 ≤ 26 ∧
      ((k : Int) - 64 ≤ 8 ↔ k ≤ 72)) ∧
    (∀ (s : String) (k : Nat), 65 ≤ k → k ≤ 90 →
      pySlice s 1 2 = String.mk [Char.ofNat k] →
      IM04_getWellRow s = .ok ((k : Int) - 64) ∧
      1 ≤ (k : Int) - 64 ∧ (k : Int) - 64 ≤ 26 ∧
      ((k : Int) - 64 ≤ 8 ↔ k ≤ 72)) := by
  constructor
  · intro s k h1 h2 h3
    refine ⟨?_, by omega, by omega, by omega⟩
    simp only [IM03_getWellRow, h3, pyStrIndex_upper k (by omega) h1]
    congr 1
    omega
  · intro s k h1 h2 h3
    refine ⟨?_, by omega, by omega, by omega⟩
    simp only [IM04_getWellRow, h3, pyStrIndex_upper k (by omega) h1]
    congr 1
    omega

/-- C6 witness: concrete instantiation at the two example filenames
(letter A at the row offset). -/
theorem C6_wellRow_witness :
    IM03_getWellRow exampleA = .ok 1 ∧ IM04_getWellRow exampleB = .ok 1 := by
  have hA := (C6_wellRow_amended.1 exampleA 65 (by norm_num) (by norm_num) (by decide)).1
  have hB := (C6_wellRow_amended.2 exampleB 65 (by norm_num) (by norm_num) (by decide)).1
  norm_num at hA hB
  exact ⟨hA, hB⟩

/-- C6 counterexample: a variant A filename with `Z` at the row offset
makes `getWellRow` return 26, outside the claimed 1-8 range. -/
theorem C6_counterexample :
    IM03_getWellRow exampleZRow = .ok 26 ∧ ¬((26 : Int) ≤ 8) := by
  decide

/-- C7: when the sliced well-column substring does not parse as an
integer, `getWellColumn` surfaces exactly that parse error (for both
variants) and never returns a value. -/
theorem C7_parse_error_propagates :
    (∀ (s : String) (e : PyError), pyInt (pySlice s 11 14) = .error e →
      IM03_getWellColumn s = .error e ∧ ∀ v, IM03_getWellColumn s ≠ .ok v) ∧
    (∀ (s : String) (e : PyError), pyInt (pySlice s 2 5) = .error e →
      IM04_getWellColumn s = .error e ∧ ∀ v, IM04_getWellColumn s ≠ .ok v) := by
  constructor
  · intro s e h
    exact ⟨h, fun v hv => by rw [IM03_getWellColumn] at hv; rw [hv] at h; exact absurd h (by simp)⟩
  · intro s e h
    exact ⟨h, fun v hv => by rw [IM04_getWellColumn] at hv; rw [hv] at h; exact absurd h (by simp)⟩

/-- C7 witness: a variant A filename with letters `XYZ` in the column
field makes `getWellColumn` return exactly the `ValueError` carrying
the unparsable substring. -/
theorem C7_parse_error_witness :
    pyInt (pySlice exampleBadColumn 11 14) = .error (.valueError "XYZ") ∧
    IM03_getWellColumn exampleBadColumn = .error (.valueError "XYZ") := by
  have h : pyInt (pySlice exampleBadColumn 11 14) = .error (.valueError "XYZ") := by decide
  exact ⟨h, (C7_parse_error_propagates.1 exampleBadColumn _ h).1⟩

/-- First-occurrence search walks past a prefix free of the byte. -/
lemma bytesFindAux_append (b : Nat) (pre rest : List Nat) (h : b ∉ pre) :
    bytesFindAux b (pre ++ b :: rest) = some pre.length := by
  induction pre with
  | nil => simp [bytesFindAux]
  | cons x xs ih =>
    simp only [List.mem_cons, not_or] at h
    have hx : ¬ (x = b) := fun hxb => h.1 hxb.symm
    simp [bytesFindAux, hx, ih h.2]

/-- The search misses entirely when the byte is absent. -/
lemma bytesFindAux_none (b : Nat) (l : List Nat) (h : b ∉ l) :
    bytesFindAux b l = none := by
  induction l with
  | nil => rfl
  | cons x xs ih =>
    simp only [List.mem_cons, not_or] at h
    have hx : ¬ (x = b) := fun hxb => h.1 hxb.symm
    simp [bytesFindAux, hx, ih h.2]

/-- Slicing from just after position `pre.length` to the last byte
exclusive extracts exactly the middle segment. -/
lemma pySliceBytes_between (pre mid : List Nat) (s c : Nat) :
    pySliceBytes (pre ++ s :: (mid ++ [c])) ((pre.length : Int) + 1) (-1) = mid := by
  have hlen : (pre ++ s :: (mid ++ [c])).length = pre.length + mid.length + 2 := by
    simp [List.length_append]
    omega
  have hlo : pyIndex (pre ++ s :: (mid ++ [c])).length ((pre.length : Int) + 1) =
      pre.length + 1 := by
    unfold pyIndex
    rw [hlen, if_neg (by omega)]
    omega
  have hhi : pyIndex (pre ++ s :: (mid ++ [c])).length (-1) =
      pre.length + mid.length + 1 := by
    unfold pyIndex
    rw [hlen, if_pos (by norm_num : (-1 : Int) < 0)]
    omega
  unfold pySliceBytes
  rw [hlo, hhi]
  have hdrop : (pre ++ s :: (mid ++ [c])).drop (pre.length + 1) = mid ++ [c] := by
    rw [List.drop_append 1]
    simp
  rw [show pre.length + mid.length + 1 - (pre.length + 1) = mid.length from by omega, hdrop]
  exact List.take_left mid [c]

/-- An all-ASCII byte list decodes without error. -/
lemma decodeUtf8Go_ascii :
    ∀ (fuel : Nat) (bs : List Nat), bs.length ≤ fuel → (∀ b ∈ bs, b < 128) →
      ∃ cs, decodeUtf8Go fuel bs = .ok cs := by
  intro fuel
  induction fuel with
  | zero =>
    intro bs h1 _
    rw [Nat.le_zero, List.length_eq_zero] at h1
    exact ⟨[], by rw [h1]; rfl⟩
  | succ n ih =>
    intro bs h1 h2
    cases bs with
    | nil => exact ⟨[], rfl⟩
    | cons b rest =>
      have hb : b < 128 := h2 b (List.mem_cons_self _ _)
      obtain ⟨cs, hcs⟩ := ih rest (by simpa using Nat.le_of_succ_le_succ h1)
        (fun x hx => h2 x (List.mem_cons_of_mem _ hx))
      exact ⟨Char.ofNat b :: cs, by simp [decodeUtf8Go, hb, hcs, Except.map]⟩

/-- C8: whenever the response consists of a separator-free prefix, the
first 0x1f unit separator, a middle segment and one trailing byte,
`getVersion` and `getStatus` return exactly the middle segment (the
bytes strictly between the first separator and the final byte) decoded
as UTF-8 text. -/
theorem C8_extract_between_separator_and_terminator :
    ∀ (pre mid : List Nat) (c : Nat), 31 ∉ pre →
      getVersionOfFeedback (pre ++ 31 :: (mid ++ [c])) = decodeUtf8 mid ∧
      getStatusOfFeedback (pre ++ 31 :: (mid ++ [c])) = decodeUtf8 mid := by
  intro pre mid c h
  have hfind : pyBytesFind (pre ++ 31 :: (mid ++ [c])) 31 = (pre.length : Int) := by
    unfold pyBytesFind
    rw [bytesFindAux_append 31 pre (mid ++ [c]) h]
  constructor
  · unfold getVersionOfFeedback
    rw [hfind, pySliceBytes_between]
  · unfold getStatusOfFeedback
    rw [hfind, pySliceBytes_between]

/-- C8 witness: a canned response `STX Ok US R e a d y ETX` yields the
text between the separator and the terminator. -/
theorem C8_extract_witness :
    getVersionOfFeedback [2, 79, 107, 31, 82, 101, 97, 100, 121, 3] =
      decodeUtf8 [82, 101, 97, 100, 121] ∧
    getStatusOfFeedback [2, 79, 107, 31, 82, 101, 97, 100, 121, 3] =
      decodeUtf8 [82, 101, 97, 100, 121] ∧
    decodeUtf8 [82, 101, 97, 100, 121] = .ok "Ready" := by
  have h := C8_extract_between_separator_and_terminator
    [2, 79, 107] [82, 101, 97, 100, 121] 3 (by decide)
  exact ⟨h.1, h.2, by decide⟩

/-- C9: the three static tables have exactly the documented key sets and
are mutually consistent (`magToNA` relates `pixelSizeToMag` and
`pixelSizeToNA` on every pixel-size key); magnification 40 appears in
`magToNA` (with NA 0.6) but never in the range of `pixelSizeToMag`, so
no pixel-size lookup - hence no decoding operation - can yield the 40x
objective. -/
theorem C9_lookup_tables_consistent :
    pixelSizeToMag.map Prod.fst = [3.25, 1.625, 0.650, 0.325] ∧
    pixelSizeToNA.map Prod.fst = [3.25, 1.625, 0.650, 0.325] ∧
    (∀ p m, (p, m) ∈ pixelSizeToMag →
      ∃ na, (p, na) ∈ pixelSizeToNA ∧ ((m : ℚ), na) ∈ magToNA) ∧
    (∀ p m, (p, m) ∈ pixelSizeToMag → m ≠ 40) ∧
    ((40 : ℚ), (0.6 : ℚ)) ∈ magToNA ∧
    (∀ s m, IM04_getObjectiveMagnification s = .ok m → m ≠ 40) ∧
    (∀ s m, IM03_getObjectiveMagnification s ≠ .ok m) := by
  refine ⟨rfl, rfl, ?_, ?_, by simp [magToNA], ?_, ?_⟩
  · intro p m hm
    fin_cases hm
    · exact ⟨0.06, by simp [pixelSizeToNA], by norm_num [magToNA]⟩
    · exact ⟨0.13, by simp [pixelSizeToNA], by norm_num [magToNA]⟩
    · exact ⟨0.3, by simp [pixelSizeToNA], by norm_num [magToNA]⟩
    · exact ⟨0.45, by simp [pixelSizeToNA], by norm_num [magToNA]⟩
  · intro p m hm
    fin_cases hm <;> decide
  · intro s m h
    rw [IM04_getObjectiveMagnification] at h
    cases hps : IM04_getPixelSize_um s with
    | error e => rw [hps] at h; simp at h
    | ok p =>
      rw [hps] at h
      simp only [] at h
      cases hd : dictLookup pixelSizeToMag p with
      | none => rw [hd] at h; simp at h
      | some mag =>
        rw [hd] at h
        simp at h
        subst h
        have hmem := dictLookup_mem pixelSizeToMag p mag hd
        fin_cases hmem <;> decide
  · intro s m h
    simp [IM03_getObjectiveMagnification] at h

/-- C9 witness: concrete instantiation of the quantified consistency
conjuncts at the first table entry, pixel size 3.25. -/
theorem C9_lookup_tables_witness :
    (∃ na, ((3.25 : ℚ), na) ∈ pixelSizeToNA ∧ (((2 : Int) : ℚ), na) ∈ magToNA) ∧
    (2 : Int) ≠ 40 ∧
    IM03_getObjectiveMagnification exampleA ≠ .ok 2 := by
  refine ⟨C9_lookup_tables_consistent.2.2.1 3.25 2 (by simp [pixelSizeToMag]),
    C9_lookup_tables_consistent.2.2.2.1 3.25 2 (by simp [pixelSizeToMag]),
    C9_lookup_tables_consistent.2.2.2.2.2.2 exampleA 2⟩

/-- C10 (amended): when the response contains no 0x1f separator at all,
`find` returns -1, so the slice starts at offset 0 and
`getVersion`/`getStatus` return the whole response minus its final byte,
decoded as text; the find/slice path itself raises nothing, and the
result is garbage text rather than an exception whenever those bytes
decode (in particular for any ASCII payload) - but not unconditionally,
since a payload that is not valid UTF-8 still fails the decode. -/
theorem C10_no_separator_returns_dropLast :
    ∀ (out : List Nat), 31 ∉ out →
      pyBytesFind out 31 = -1 ∧
      getVersionOfFeedback out = decodeUtf8 out.dropLast ∧
      getStatusOfFeedback out = decodeUtf8 out.dropLast ∧
      ((∀ b ∈ out.dropLast, b < 128) →
        ∃ s, getVersionOfFeedback out = .ok s ∧ getStatusOfFeedback out = .ok s) := by
  intro out h
  have hfind : pyBytesFind out 31 = -1 := by
    unfold pyBytesFind
    rw [bytesFindAux_none 31 out h]
  have hlo : pyIndex out.length (-1 + 1) = 0 := by
    unfold pyIndex
    norm_num
  have hhi : pyIndex out.length (-1) = out.length - 1 := by
    unfold pyIndex
    rw [if_pos (by norm_num : (-1 : Int) < 0)]
    omega
  have hslice : pySliceBytes out (-1 + 1) (-1) = out.dropLast := by
    unfold pySliceBytes
    rw [hlo, hhi]
    simp [List.dropLast_eq_take]
  have hv : getVersionOfFeedback out = decodeUtf8 out.dropLast := by
    unfold getVersionOfFeedback
    rw [hfind, hslice]
  have hs : getStatusOfFeedback out = decodeUtf8 out.dropLast := by
    unfold getStatusOfFeedback
    rw [hfind, hslice]
  refine ⟨hfind, hv, hs, fun hascii => ?_⟩
  obtain ⟨cs, hcs⟩ := decodeUtf8Go_ascii out.dropLast.length out.dropLast le_rfl hascii
  exact ⟨String.mk cs, by rw [hv]; simp only [decodeUtf8, hcs, Except.map],
    by rw [hs]; simp only [decodeUtf8, hcs, Except.map]⟩

/-- C10 witness: a separator-free response `H i ETX` yields the decoded
text of everything but the final byte. -/
theorem C10_no_separator_witness :
    getVersionOfFeedback [72, 105, 3] = decodeUtf8 [72, 105] ∧
    getStatusOfFeedback [72, 105, 3] = decodeUtf8 [72, 105] ∧
    decodeUtf8 [72, 105] = .ok "Hi" := by
  have h := C10_no_separator_returns_dropLast [72, 105, 3] (by decide)
  exact ⟨h.2.1, h.2.2.1, by decide⟩

/-- C10 counterexample: a separator-free response whose payload byte 0xff
is not valid UTF-8 makes `getVersion`/`getStatus` raise
`UnicodeDecodeError`, so the unconditional no-error part of the original
claim fails. -/
theorem C10_counterexample :
    (31 : Nat) ∉ [255, 3] ∧
    getVersionOfFeedback [255, 3] = .error .unicodeDecodeError ∧
    getStatusOfFeedback [255, 3] = .error .unicodeDecodeError := by
  decide
